import Mathlib

/-!
Shallow embedding of the Pong session manager (`src/backend/src/gameManager.ts`
together with the constants from `src/frontend/src/types/gameTypes.ts`).

Numbers held in JavaScript variables are modelled as rationals (all constants
involved — 800, 400, 20, 80, 3, 8, 1.5, 0.5, 0.1 — are exactly representable,
and no operation of the embedded code leaves the dyadic rationals).  Scores are
naturals.  JavaScript `Map`s are modelled as insertion-ordered association
lists (`SMap`); `Math.random()`-driven sign choices and the generated room id
are passed in as explicit parameters.  In the source, the `Player` objects
stored in `room.players` are the same objects referenced from
`room.gameState.players.left/right`; mutations through either reference are
therefore mirrored into both containers here.
-/

/-! ## Constants (gameTypes.ts) -/

def GAME_WIDTH : ℚ := 800
def GAME_HEIGHT : ℚ := 400
def PADDLE_WIDTH : ℚ := 20
def PADDLE_HEIGHT : ℚ := 80
def BALL_SIZE : ℚ := 20
def BALL_SPEED : ℚ := 3
def PADDLE_SPEED : ℚ := 8

/-! ## Data model (gameTypes.ts) -/

inductive PlayerSide where
  | left
  | right
deriving DecidableEq, Repr

inductive MoveDir where
  | up
  | down
deriving DecidableEq, Repr

structure Ball where
  x : ℚ
  y : ℚ
  vx : ℚ
  vy : ℚ
deriving DecidableEq, Repr

structure Paddle where
  x : ℚ
  y : ℚ
deriving DecidableEq, Repr

structure Player where
  id : String
  side : PlayerSide
  paddle : Paddle
  score : ℕ
  connected : Bool
deriving DecidableEq, Repr

structure Slots where
  left : Option Player
  right : Option Player
deriving DecidableEq, Repr

structure GameState where
  ball : Ball
  players : Slots
  gameActive : Bool
  winner : Option String
deriving DecidableEq, Repr

/-- A JavaScript `Map` with string keys: an insertion-ordered association
list.  `Map.set` replaces in place when the key exists and appends at the end
otherwise; `Map.delete` removes the key's entry. -/
def SMap (α : Type) : Type := List (String × α)

instance {α : Type} [DecidableEq α] : DecidableEq (SMap α) :=
  inferInstanceAs (DecidableEq (List (String × α)))

instance {α : Type} [Repr α] : Repr (SMap α) :=
  inferInstanceAs (Repr (List (String × α)))

namespace SMap

def get {α : Type} (m : SMap α) (k : String) : Option α :=
  match m with
  | [] => none
  | (k', v) :: rest => if k' = k then some v else get rest k

def set {α : Type} (m : SMap α) (k : String) (v : α) : SMap α :=
  match m with
  | [] => [(k, v)]
  | (k', v') :: rest => if k' = k then (k, v) :: rest else (k', v') :: set rest k v

def del {α : Type} (m : SMap α) (k : String) : SMap α :=
  match m with
  | [] => []
  | (k', v') :: rest => if k' = k then del rest k else (k', v') :: del rest k

/-- `Array.from(m.values())`: the values in insertion order. -/
def values {α : Type} (m : SMap α) : List α := m.map Prod.snd

def size {α : Type} (m : SMap α) : ℕ := m.length

end SMap

/-- The three `Math.random()` comparisons a single ball reset can consume
(`vx` sign, `vy` sign, and the sign in the dead `|vy| < 0.1` re-roll). -/
structure Rng where
  s1 : Bool
  s2 : Bool
  s3 : Bool
deriving DecidableEq, Repr

structure GameRoom where
  id : String
  gameState : GameState
  players : SMap Player
  /-- `gameLoopIntervalId`: `none` when the field is unset; `some true` when an
  armed interval handle is stored; `some false` when the stored handle has been
  passed to `clearInterval` (the field itself is not deleted by
  `GameManager.removePlayer`). -/
  gameLoopIntervalId : Option Bool
deriving DecidableEq, Repr

structure GameManager where
  rooms : SMap GameRoom
  waitingPlayers : List String
  playerToRoom : SMap String
deriving DecidableEq, Repr

/-! ## GameManager operations (gameManager.ts) -/

/-- `createInitialGameState` (lines 21–36); `rng.s1`/`rng.s2` are the two
`Math.random() > 0.5` draws for the initial velocity signs. -/
def createInitialGameState (rng : Rng) : GameState :=
  { ball :=
      { x := GAME_WIDTH / 2
        y := GAME_HEIGHT / 2
        vx := BALL_SPEED * (if rng.s1 then 1 else -1)
        vy := BALL_SPEED * (if rng.s2 then 1 else -1) }
    players := { left := none, right := none }
    gameActive := false
    winner := none }

/-- `createPlayer` (lines 39–52). -/
def createPlayer (playerId : String) (side : PlayerSide) : Player :=
  { id := playerId
    side := side
    paddle :=
      { x := if side = .left then 20 else GAME_WIDTH - 20 - PADDLE_WIDTH
        y := GAME_HEIGHT / 2 - PADDLE_HEIGHT / 2 }
    score := 0
    connected := true }

/-- Write an updated player object into the `gameState.players` slot for its
side (the source assigns the shared object: `room.gameState.players.left =
player` / `... .right = player`). -/
def GameState.setSide (gs : GameState) (side : PlayerSide) (p : Option Player) : GameState :=
  match side with
  | .left => { gs with players := { gs.players with left := p } }
  | .right => { gs with players := { gs.players with right := p } }

structure AddResult where
  roomId : String
  side : PlayerSide
  isNewGame : Bool
  waitingPlayerId : Option String
deriving DecidableEq, Repr

/-- The matchmaking tail of `addPlayer` (lines 82–137), reached when no valid
reconnection mapping exists.  `newRoomId` stands for the generated
`room_${Date.now()}_${...}` string. -/
def GameManager.matchmake (gm : GameManager) (playerId : String) (newRoomId : String)
    (rng : Rng) : GameManager × Option AddResult :=
  match gm.waitingPlayers with
  | [] =>
    ({ gm with waitingPlayers := gm.waitingPlayers ++ [playerId] }, none)
  | waitingPlayerId :: rest =>
    if waitingPlayerId = playerId then
      ({ gm with waitingPlayers := rest ++ [playerId] }, none)
    else
      let leftPlayer := createPlayer waitingPlayerId .left
      let rightPlayer := createPlayer playerId .right
      let gameState :=
        { createInitialGameState rng with
            players := { left := some leftPlayer, right := some rightPlayer } }
      let room : GameRoom :=
        { id := newRoomId
          gameState := gameState
          players := [(waitingPlayerId, leftPlayer), (playerId, rightPlayer)]
          gameLoopIntervalId := none }
      ({ gm with
           rooms := gm.rooms.set newRoomId room
           playerToRoom := (gm.playerToRoom.set waitingPlayerId newRoomId).set playerId newRoomId
           waitingPlayers := rest },
       some { roomId := newRoomId, side := .right, isNewGame := true
              waitingPlayerId := some waitingPlayerId })

/-- `addPlayer` (lines 55–138). -/
def GameManager.addPlayer (gm : GameManager) (playerId : String) (newRoomId : String)
    (rng : Rng) : GameManager × Option AddResult :=
  match gm.playerToRoom.get playerId with
  | none => gm.matchmake playerId newRoomId rng
  | some existingRoomId =>
    match gm.rooms.get existingRoomId with
    | none =>
      GameManager.matchmake { gm with playerToRoom := gm.playerToRoom.del playerId }
        playerId newRoomId rng
    | some room =>
      match room.players.get playerId with
      | none =>
        GameManager.matchmake { gm with playerToRoom := gm.playerToRoom.del playerId }
          playerId newRoomId rng
      | some player =>
        let player' := { player with connected := true }
        let room' :=
          { room with
              players := room.players.set playerId player'
              gameState := room.gameState.setSide player'.side (some player') }
        ({ gm with rooms := gm.rooms.set existingRoomId room' },
         some { roomId := existingRoomId, side := player.side, isNewGame := false
                waitingPlayerId := none })

structure RemoveResult where
  roomId : String
  disconnectedSide : PlayerSide
deriving DecidableEq, Repr

/-- `removePlayer` (lines 141–210). -/
def GameManager.removePlayer (gm : GameManager) (playerId : String) :
    GameManager × Option RemoveResult :=
  if playerId ∈ gm.waitingPlayers then
    ({ gm with waitingPlayers := gm.waitingPlayers.erase playerId }, none)
  else
    match gm.playerToRoom.get playerId with
    | none => (gm, none)
    | some roomId =>
      match gm.rooms.get roomId with
      | none =>
        ({ gm with playerToRoom := gm.playerToRoom.del playerId }, none)
      | some room =>
        match room.players.get playerId with
        | none =>
          ({ gm with playerToRoom := gm.playerToRoom.del playerId }, none)
        | some player =>
          let disconnectedSide := player.side
          let player' := { player with connected := false }
          let room1 :=
            { room with
                players := room.players.set playerId player'
                gameState := room.gameState.setSide player.side none }
          let remainingPlayers :=
            room1.players.values.filter (fun p => p.id ≠ playerId ∧ p.connected)
          match remainingPlayers with
          | [] =>
            ({ gm with
                 rooms := gm.rooms.del roomId
                 playerToRoom := gm.playerToRoom.del playerId },
             some { roomId := roomId, disconnectedSide := disconnectedSide })
          | otherPlayer :: _ =>
            let room2 :=
              { room1 with
                  gameState :=
                    { room1.gameState with gameActive := false, winner := some otherPlayer.id }
                  gameLoopIntervalId := room1.gameLoopIntervalId.map (fun _ => false) }
            ({ gm with
                 rooms := gm.rooms.set roomId room2
                 playerToRoom := gm.playerToRoom.del playerId },
             some { roomId := roomId, disconnectedSide := disconnectedSide })

/-- `movePaddle` (lines 213–238). -/
def GameManager.movePaddle (gm : GameManager) (playerId : String) (direction : MoveDir) :
    GameManager × Option String :=
  match gm.playerToRoom.get playerId with
  | none => (gm, none)
  | some roomId =>
    match gm.rooms.get roomId with
    | none => (gm, none)
    | some room =>
      match room.players.get playerId with
      | none => (gm, none)
      | some player =>
        if player.connected = false then (gm, none)
        else
          let newY :=
            match direction with
            | .up => max 0 (player.paddle.y - PADDLE_SPEED)
            | .down => min (GAME_HEIGHT - PADDLE_HEIGHT) (player.paddle.y + PADDLE_SPEED)
          let player' := { player with paddle := { player.paddle with y := newY } }
          let room' :=
            { room with
                players := room.players.set playerId player'
                gameState := room.gameState.setSide player.side (some player') }
          ({ gm with rooms := gm.rooms.set roomId room' }, some roomId)

/-- `resetBall` (lines 357–371).  `rng.s3` drives the re-roll in the
`|newVy| < 0.1` branch (unreachable: `newVy` is always `±3`). -/
def resetBall (rng : Rng) (gs : GameState) : GameState :=
  let newVx := BALL_SPEED * (if rng.s1 then 1 else -1)
  let newVy0 := BALL_SPEED * (if rng.s2 then 1 else -1)
  let newVy :=
    if |newVy0| < 1/10 then BALL_SPEED * (if rng.s3 then (1 : ℚ)/2 else -(1 : ℚ)/2)
    else newVy0
  { gs with
      ball := { x := GAME_WIDTH / 2, y := GAME_HEIGHT / 2, vx := newVx, vy := newVy } }

/-- The integration, wall-bounce and paddle-collision part of `updateBall`
(lines 286–320): the ball after one step, before the scoring check. -/
def moveAndCollide (gs : GameState) : Ball :=
  let b := gs.ball
  let x1 := b.x + b.vx
  let y1 := b.y + b.vy
  let vy1 := if y1 ≤ 0 ∨ y1 ≥ GAME_HEIGHT - BALL_SIZE then -b.vy else b.vy
  let y2 :=
    if y1 ≤ 0 ∨ y1 ≥ GAME_HEIGHT - BALL_SIZE then
      max 0 (min (GAME_HEIGHT - BALL_SIZE) y1)
    else y1
  let leftStep : ℚ × ℚ :=
    match gs.players.left with
    | some lp =>
      if b.vx < 0 ∧ x1 ≤ lp.paddle.x + PADDLE_WIDTH ∧ x1 + BALL_SIZE ≥ lp.paddle.x ∧
          y2 + BALL_SIZE ≥ lp.paddle.y ∧ y2 ≤ lp.paddle.y + PADDLE_HEIGHT then
        (lp.paddle.x + PADDLE_WIDTH, -b.vx)
      else (x1, b.vx)
    | none => (x1, b.vx)
  let x2 := leftStep.1
  let vx2 := leftStep.2
  let rightStep : ℚ × ℚ :=
    match gs.players.right with
    | some rp =>
      if vx2 > 0 ∧ x2 + BALL_SIZE ≥ rp.paddle.x ∧ x2 ≤ rp.paddle.x + PADDLE_WIDTH ∧
          y2 + BALL_SIZE ≥ rp.paddle.y ∧ y2 ≤ rp.paddle.y + PADDLE_HEIGHT then
        (rp.paddle.x - BALL_SIZE, -vx2)
      else (x2, vx2)
    | none => (x2, vx2)
  { x := rightStep.1, y := y2, vx := rightStep.2, vy := vy1 }

/-- The physics body of `updateBall` (lines 283–353), acting on the game state
of an active room.  Returns the updated state and the `return true/false`
value (true exactly when the ball crossed a scoring edge). -/
def stepPhysics (rng : Rng) (gs : GameState) : GameState × Bool :=
  let ball1 := moveAndCollide gs
  if ball1.x < 0 then
    match gs.players.right with
    | some rp =>
      let rp' := { rp with score := rp.score + 1 }
      let gs1 :=
        { gs with ball := ball1, players := { gs.players with right := some rp' } }
      let gs2 := resetBall rng gs1
      let gs3 :=
        if rp'.score ≥ 5 then { gs2 with winner := some rp'.id, gameActive := false }
        else gs2
      (gs3, true)
    | none => ({ gs with ball := ball1 }, true)
  else if ball1.x > GAME_WIDTH then
    match gs.players.left with
    | some lp =>
      let lp' := { lp with score := lp.score + 1 }
      let gs1 :=
        { gs with ball := ball1, players := { gs.players with left := some lp' } }
      let gs2 := resetBall rng gs1
      let gs3 :=
        if lp'.score ≥ 5 then { gs2 with winner := some lp'.id, gameActive := false }
        else gs2
      (gs3, true)
    | none => ({ gs with ball := ball1 }, true)
  else
    ({ gs with ball := ball1 }, false)

/-- Mirror the mutations of the shared `Player` objects back into the
`room.players` map (in the source, `gameState.players.left/right` alias the
map's values, so a score increment through the game state is visible there). -/
def syncPlayers (ps : SMap Player) (gs : GameState) : SMap Player :=
  let ps1 := match gs.players.left with
    | some p => ps.set p.id p
    | none => ps
  match gs.players.right with
  | some p => ps1.set p.id p
  | none => ps1

/-- `updateBall` (lines 279–354). -/
def GameManager.updateBall (gm : GameManager) (roomId : String) (rng : Rng) :
    GameManager × Bool :=
  match gm.rooms.get roomId with
  | none => (gm, false)
  | some room =>
    if room.gameState.gameActive = false then (gm, false)
    else
      let res := stepPhysics rng room.gameState
      let room' :=
        { room with gameState := res.1, players := syncPlayers room.players res.1 }
      ({ gm with rooms := gm.rooms.set roomId room' }, res.2)

/-! ## Observers and iteration helpers -/

/-- The ball of a registered room. -/
def GameManager.roomBall (gm : GameManager) (roomId : String) : Option Ball :=
  (gm.rooms.get roomId).map (fun r => r.gameState.ball)

/-- The right slot's score of a registered room. -/
def GameManager.rightScore (gm : GameManager) (roomId : String) : Option ℕ :=
  (gm.rooms.get roomId).bind (fun r => (r.gameState.players.right).map (fun p => p.score))

/-- The `y` coordinate of a player's paddle, reached through the player-to-room
mapping and the room's player map. -/
def GameManager.paddleY (gm : GameManager) (playerId : String) : Option ℚ :=
  match gm.playerToRoom.get playerId with
  | none => none
  | some roomId =>
    match gm.rooms.get roomId with
    | none => none
    | some room => (room.players.get playerId).map (fun p => p.paddle.y)

/-- Run `n` consecutive ticks (`updateBall`) of one room, the `i`-th tick
drawing its randomness from `rngs i`. -/
def iterateTicks (roomId : String) (rngs : ℕ → Rng) (gm : GameManager) : ℕ → GameManager
  | 0 => gm
  | n + 1 => ((iterateTicks roomId rngs gm n).updateBall roomId (rngs n)).1

/-- Apply a list of move intents from one player in order. -/
def applyMoves (playerId : String) (gm : GameManager) : List MoveDir → GameManager
  | [] => gm
  | d :: ds => applyMoves playerId (gm.movePaddle playerId d).1 ds

/-! ## Association-map lemmas -/

theorem SMap.get_set_self {α : Type} (m : SMap α) (k : String) (v : α) :
    (m.set k v).get k = some v := by
  induction m with
  | nil => simp [SMap.set, SMap.get]
  | cons kv rest ih =>
    obtain ⟨k', v'⟩ := kv
    by_cases h : k' = k <;> simp [SMap.set, SMap.get, h, ih]

theorem SMap.get_set_ne {α : Type} (m : SMap α) (k r : String) (v : α) (h : r ≠ k) :
    (m.set k v).get r = m.get r := by
  induction m with
  | nil => simp [SMap.set, SMap.get, Ne.symm h]
  | cons kv rest ih =>
    obtain ⟨k', v'⟩ := kv
    by_cases hk : k' = k
    · subst hk
      simp [SMap.set, SMap.get, Ne.symm h]
    · by_cases hr : k' = r <;> simp [SMap.set, SMap.get, hk, hr, h, ih]

theorem SMap.get_del_self {α : Type} (m : SMap α) (k : String) :
    (m.del k).get k = none := by
  induction m with
  | nil => simp [SMap.del, SMap.get]
  | cons kv rest ih =>
    obtain ⟨k', v'⟩ := kv
    by_cases h : k' = k <;> simp [SMap.del, SMap.get, h, ih]

theorem SMap.get_del_ne {α : Type} (m : SMap α) (k r : String) (h : r ≠ k) :
    (m.del k).get r = m.get r := by
  induction m with
  | nil => simp [SMap.del, SMap.get]
  | cons kv rest ih =>
    obtain ⟨k', v'⟩ := kv
    by_cases hk : k' = k
    · subst hk
      simp [SMap.del, SMap.get, Ne.symm h, ih]
    · by_cases hr : k' = r <;> simp [SMap.del, SMap.get, hk, hr, h, ih]

theorem SMap.size_set_of_isSome {α : Type} (m : SMap α) (k : String) (v : α)
    (h : (m.get k).isSome) : (m.set k v).size = m.size := by
  induction m with
  | nil => simp [SMap.get] at h
  | cons kv rest ih =>
    obtain ⟨k', v'⟩ := kv
    by_cases hk : k' = k
    · simp [SMap.set, SMap.size, hk]
    · simp [SMap.get, hk] at h
      simp [SMap.set, SMap.size, hk]
      simpa [SMap.size] using ih h

theorem SMap.size_set_of_none {α : Type} (m : SMap α) (k : String) (v : α)
    (h : m.get k = none) : (m.set k v).size = m.size + 1 := by
  induction m with
  | nil => simp [SMap.set, SMap.size]
  | cons kv rest ih =>
    obtain ⟨k', v'⟩ := kv
    by_cases hk : k' = k
    · simp [SMap.get, hk] at h
    · simp [SMap.get, hk] at h
      simp [SMap.set, SMap.size, hk]
      simpa [SMap.size] using ih h

theorem SMap.isSome_get_set {α : Type} (m : SMap α) (k r : String) (v : α)
    (h : (m.get k).isSome) : ((m.set k v).get r).isSome = (m.get r).isSome := by
  by_cases hr : r = k
  · subst hr
    simp [SMap.get_set_self, h]
  · simp [SMap.get_set_ne m k r v hr]

/-! ## Fixtures -/

/-- A manager whose player-to-room mapping points at a room id absent from the
registry (a stale mapping). -/
def gmStale : GameManager :=
  { rooms := [], waitingPlayers := [], playerToRoom := [("p", "r")] }

def rngT : Rng := { s1 := true, s2 := true, s3 := true }

def paFix : Player := createPlayer "a" .left

def pbFix : Player := createPlayer "b" .right

/-- A two-player room with both slots connected and an armed tick interval. -/
def roomFix : GameRoom :=
  { id := "r"
    gameState :=
      { ball := { x := 400, y := 200, vx := 3, vy := 3 }
        players := { left := some paFix, right := some pbFix }
        gameActive := true
        winner := none }
    players := [("a", paFix), ("b", pbFix)]
    gameLoopIntervalId := some true }

def gmFix : GameManager :=
  { rooms := [("r", roomFix)], waitingPlayers := [], playerToRoom := [("a", "r"), ("b", "r")] }

/-! ## C9 -/

/-- C9, counterexample: with a mapping `"p" → "r"` and no room `"r"`,
`movePaddle` returns the not-in-session result but does NOT purge the stale
mapping, contradicting the claim that every one of the three operations purges
it. -/
theorem movePaddle_keeps_stale_mapping :
    (gmStale.movePaddle "p" .up).2 = none ∧
    (gmStale.movePaddle "p" .up).1.playerToRoom.get "p" = some "r" := by
  decide

/-- C9 (amended): when the player-to-room mapping points to a session id absent
from the registry, `addPlayer` and `removePlayer` purge the stale mapping and
degrade to the not-in-session behaviour, while `movePaddle` returns the
not-in-session result without mutating anything — leaving the stale mapping in
place. -/
theorem stale_mapping_purged_or_ignored (gm : GameManager) (p rid nrid : String)
    (rng : Rng) (d : MoveDir)
    (hw : p ∉ gm.waitingPlayers)
    (hmap : gm.playerToRoom.get p = some rid)
    (hroom : gm.rooms.get rid = none) :
    gm.removePlayer p = ({ gm with playerToRoom := gm.playerToRoom.del p }, none) ∧
    gm.addPlayer p nrid rng =
      GameManager.addPlayer { gm with playerToRoom := gm.playerToRoom.del p } p nrid rng ∧
    gm.movePaddle p d = (gm, none) := by
  refine ⟨?_, ?_, ?_⟩
  · simp [GameManager.removePlayer, hw, hmap, hroom]
  · simp [GameManager.addPlayer, hmap, hroom, SMap.get_del_self]
  · simp [GameManager.movePaddle, hmap, hroom]

/-- Witness for `stale_mapping_purged_or_ignored` at a concrete input. -/
theorem stale_mapping_purged_or_ignored_witness :
    ("p" ∉ gmStale.waitingPlayers ∧ gmStale.playerToRoom.get "p" = some "r" ∧
      gmStale.rooms.get "r" = none) ∧
    (gmStale.removePlayer "p" =
        ({ gmStale with playerToRoom := gmStale.playerToRoom.del "p" }, none) ∧
      gmStale.addPlayer "p" "nr" rngT =
        GameManager.addPlayer { gmStale with playerToRoom := gmStale.playerToRoom.del "p" }
          "p" "nr" rngT ∧
      gmStale.movePaddle "p" .up = (gmStale, none)) :=
  ⟨⟨by decide, by decide, by decide⟩,
   stale_mapping_purged_or_ignored gmStale "p" "r" "nr" rngT .up
     (by decide) (by decide) (by decide)⟩

/-! ## C5 -/

/-- C5, counterexample: after both players of `gmFix` disconnect (first "a",
then "b") the session is removed from the registry, but the first
`removePlayer` call already recorded the surviving player "b" as forfeit
winner, contradicting "no winner ever assigned". -/
theorem both_disconnect_winner_was_assigned :
    (((gmFix.removePlayer "a").1.removePlayer "b").1.rooms.get "r" = none) ∧
    ((gmFix.removePlayer "a").1.rooms.get "r").map (fun room => room.gameState.winner) =
      some (some "b") := by
  decide

/-! ## C1 -/

/-- C1: from a state with an empty waiting queue and no mapping for either id,
a join by A (queued) followed by a join by distinct B creates exactly one new
room, with A assigned the left side, B the right side, and both ids mapped to
the new room. -/
theorem two_joins_create_one_room (gm : GameManager) (a b nrid1 nrid2 : String)
    (rng1 rng2 : Rng)
    (hq : gm.waitingPlayers = [])
    (ha : gm.playerToRoom.get a = none)
    (hb : gm.playerToRoom.get b = none)
    (hab : a ≠ b)
    (hfresh : gm.rooms.get nrid2 = none) :
    (gm.addPlayer a nrid1 rng1).2 = none ∧
    (((gm.addPlayer a nrid1 rng1).1).addPlayer b nrid2 rng2).2 =
      some { roomId := nrid2, side := .right, isNewGame := true, waitingPlayerId := some a } ∧
    (∃ room,
      (((gm.addPlayer a nrid1 rng1).1).addPlayer b nrid2 rng2).1.rooms.get nrid2 = some room ∧
      room.gameState.players.left = some (createPlayer a .left) ∧
      room.gameState.players.right = some (createPlayer b .right) ∧
      room.players.get a = some (createPlayer a .left) ∧
      room.players.get b = some (createPlayer b .right)) ∧
    (((gm.addPlayer a nrid1 rng1).1).addPlayer b nrid2 rng2).1.playerToRoom.get a = some nrid2 ∧
    (((gm.addPlayer a nrid1 rng1).1).addPlayer b nrid2 rng2).1.playerToRoom.get b = some nrid2 ∧
    (((gm.addPlayer a nrid1 rng1).1).addPlayer b nrid2 rng2).1.rooms.size = gm.rooms.size + 1 ∧
    (∀ r, r ≠ nrid2 →
      (((gm.addPlayer a nrid1 rng1).1).addPlayer b nrid2 rng2).1.rooms.get r = gm.rooms.get r) := by
  have hstep1 : gm.addPlayer a nrid1 rng1 =
      ({ gm with waitingPlayers := [a] }, none) := by
    simp [GameManager.addPlayer, GameManager.matchmake, ha, hq]
  rw [hstep1]
  have hstep2 : GameManager.addPlayer { gm with waitingPlayers := [a] } b nrid2 rng2 =
      ({ gm with
           rooms := gm.rooms.set nrid2
             { id := nrid2
               gameState :=
                 { createInitialGameState rng2 with
                     players := { left := some (createPlayer a .left)
                                  right := some (createPlayer b .right) } }
               players := [(a, createPlayer a .left), (b, createPlayer b .right)]
               gameLoopIntervalId := none }
           playerToRoom := (gm.playerToRoom.set a nrid2).set b nrid2
           waitingPlayers := [] },
       some { roomId := nrid2, side := .right, isNewGame := true, waitingPlayerId := some a }) := by
    simp [GameManager.addPlayer, GameManager.matchmake, hb, hab]
  rw [hstep2]
  refine ⟨rfl, rfl, ⟨_, SMap.get_set_self _ _ _, rfl, rfl, ?_, ?_⟩, ?_, ?_, ?_, ?_⟩
  · simp [SMap.get]
  · simp [SMap.get, hab]
  · rw [SMap.get_set_ne _ b a nrid2 hab, SMap.get_set_self]
  · rw [SMap.get_set_self]
  · exact SMap.size_set_of_none _ _ _ hfresh
  · intro r hr
    exact SMap.get_set_ne _ _ _ _ hr

/-- Witness for `two_joins_create_one_room` at a concrete input. -/
theorem two_joins_create_one_room_witness :
    ((GameManager.mk [] [] []).waitingPlayers = []) ∧
    ((GameManager.mk [] [] []).playerToRoom.get "a" = none) ∧
    ((GameManager.mk [] [] []).playerToRoom.get "b" = none) ∧
    "a" ≠ "b" ∧
    ((GameManager.mk [] [] []).rooms.get "r2" = none) ∧
    (((GameManager.mk [] [] []).addPlayer "a" "r1" rngT).2 = none ∧
      ((((GameManager.mk [] [] []).addPlayer "a" "r1" rngT).1).addPlayer "b" "r2" rngT).2 =
        some { roomId := "r2", side := .right, isNewGame := true, waitingPlayerId := some "a" } ∧
      (∃ room,
        ((((GameManager.mk [] [] []).addPlayer "a" "r1" rngT).1).addPlayer "b" "r2"
            rngT).1.rooms.get "r2" = some room ∧
        room.gameState.players.left = some (createPlayer "a" .left) ∧
        room.gameState.players.right = some (createPlayer "b" .right) ∧
        room.players.get "a" = some (createPlayer "a" .left) ∧
        room.players.get "b" = some (createPlayer "b" .right)) ∧
      ((((GameManager.mk [] [] []).addPlayer "a" "r1" rngT).1).addPlayer "b" "r2"
          rngT).1.playerToRoom.get "a" = some "r2" ∧
      ((((GameManager.mk [] [] []).addPlayer "a" "r1" rngT).1).addPlayer "b" "r2"
          rngT).1.playerToRoom.get "b" = some "r2" ∧
      ((((GameManager.mk [] [] []).addPlayer "a" "r1" rngT).1).addPlayer "b" "r2"
          rngT).1.rooms.size = (GameManager.mk [] [] []).rooms.size + 1 ∧
      (∀ r, r ≠ "r2" →
        ((((GameManager.mk [] [] []).addPlayer "a" "r1" rngT).1).addPlayer "b" "r2"
            rngT).1.rooms.get r = (GameManager.mk [] [] []).rooms.get r)) :=
  ⟨rfl, by decide, by decide, by decide, by decide,
   two_joins_create_one_room (GameManager.mk [] [] []) "a" "b" "r1" "r2" rngT rngT
     rfl (by decide) (by decide) (by decide) (by decide)⟩

/-! ## C8 -/

/-- Any room stored by the matchmaking branch pairs the dequeued waiting id
(left) with the requesting id (right), and the self-match guard makes these
distinct. -/
theorem matchmake_new_room_distinct (gm : GameManager) (p nrid : String) (rng : Rng)
    (res : AddResult) (room : GameRoom)
    (hres : (gm.matchmake p nrid rng).2 = some res)
    (hget : (gm.matchmake p nrid rng).1.rooms.get res.roomId = some room) :
    ∀ lp rp, room.gameState.players.left = some lp →
      room.gameState.players.right = some rp → lp.id ≠ rp.id := by
  rcases hW : gm.waitingPlayers with _ | ⟨w, rest⟩
  · simp [GameManager.matchmake, hW] at hres
  · by_cases hwp : w = p
    · simp [GameManager.matchmake, hW, hwp] at hres
    · simp only [GameManager.matchmake, hW, if_neg hwp] at hres hget
      have hres' : res = { roomId := nrid, side := .right, isNewGame := true
                           waitingPlayerId := some w } := by
        exact (Option.some.inj hres).symm
      subst hres'
      simp only [SMap.get_set_self] at hget
      have hroom := Option.some.inj hget
      subst hroom
      intro lp rp hlp hrp
      simp only [Option.some.inj hlp.symm, Option.some.inj hrp.symm]
      simpa [createPlayer] using hwp

/-- Any `addPlayer` call that reports a newly created game produced a room
whose two slots hold distinct player ids. -/
theorem addPlayer_new_room_distinct (gm : GameManager) (q nrid : String) (rng : Rng)
    (res : AddResult) (room : GameRoom)
    (hres : (gm.addPlayer q nrid rng).2 = some res)
    (hnew : res.isNewGame = true)
    (hget : (gm.addPlayer q nrid rng).1.rooms.get res.roomId = some room) :
    ∀ lp rp, room.gameState.players.left = some lp →
      room.gameState.players.right = some rp → lp.id ≠ rp.id := by
  rcases hM : gm.playerToRoom.get q with _ | rid
  · simp only [GameManager.addPlayer, hM] at hres hget
    exact matchmake_new_room_distinct _ _ _ _ _ _ hres hget
  · rcases hR : gm.rooms.get rid with _ | room0
    · simp only [GameManager.addPlayer, hM, hR] at hres hget
      exact matchmake_new_room_distinct _ _ _ _ _ _ hres hget
    · rcases hP : room0.players.get q with _ | pl
      · simp only [GameManager.addPlayer, hM, hR, hP] at hres hget
        exact matchmake_new_room_distinct _ _ _ _ _ _ hres hget
      · simp only [GameManager.addPlayer, hM, hR, hP] at hres
        have : res = { roomId := rid, side := pl.side, isNewGame := false
                       waitingPlayerId := none } := (Option.some.inj hres).symm
        rw [this] at hnew
        simp at hnew

/-- C8: if a join dequeues a head-of-queue id equal to the requesting id
itself, no session is created, the id is re-queued at the back, and the
request is treated as "queued" (result `none`); moreover no `addPlayer` call
ever creates a session whose two slots hold the same player id. -/
theorem self_match_requeues (gm : GameManager) (p nrid : String) (rest : List String)
    (rng : Rng)
    (hmap : gm.playerToRoom.get p = none)
    (hq : gm.waitingPlayers = p :: rest) :
    gm.addPlayer p nrid rng = ({ gm with waitingPlayers := rest ++ [p] }, none) ∧
    (∀ (gm' : GameManager) (q nrid' : String) (rng' : Rng) (res : AddResult)
        (room : GameRoom),
      (gm'.addPlayer q nrid' rng').2 = some res →
      res.isNewGame = true →
      (gm'.addPlayer q nrid' rng').1.rooms.get res.roomId = some room →
      ∀ lp rp, room.gameState.players.left = some lp →
        room.gameState.players.right = some rp → lp.id ≠ rp.id) := by
  constructor
  · simp [GameManager.addPlayer, GameManager.matchmake, hmap, hq]
  · intro gm' q nrid' rng' res room hres hnew hget
    exact addPlayer_new_room_distinct gm' q nrid' rng' res room hres hnew hget

/-- Witness for `self_match_requeues` at a concrete input. -/
theorem self_match_requeues_witness :
    ((GameManager.mk [] ["p"] []).playerToRoom.get "p" = none ∧
      (GameManager.mk [] ["p"] []).waitingPlayers = "p" :: []) ∧
    ((GameManager.mk [] ["p"] []).addPlayer "p" "nr" rngT =
        ({ GameManager.mk [] ["p"] [] with waitingPlayers := [] ++ ["p"] }, none) ∧
      (∀ (gm' : GameManager) (q nrid' : String) (rng' : Rng) (res : AddResult)
          (room : GameRoom),
        (gm'.addPlayer q nrid' rng').2 = some res →
        res.isNewGame = true →
        (gm'.addPlayer q nrid' rng').1.rooms.get res.roomId = some room →
        ∀ lp rp, room.gameState.players.left = some lp →
          room.gameState.players.right = some rp → lp.id ≠ rp.id)) :=
  ⟨⟨by decide, rfl⟩,
   self_match_requeues (GameManager.mk [] ["p"] []) "p" "nr" [] rngT (by decide) rfl⟩

/-! ## C10 -/

/-- C10: for a connected player in a session, `movePaddle` returns the room id
and mutates only that player's paddle `y` (to the 8-unit step clamped at the
field boundary); the ball, the active flag, the winner, the interval handle,
the opponent's slot, the other players' map entries, the queue, the
player-to-room mapping and all other rooms are unchanged. -/
theorem movePaddle_frame (gm : GameManager) (p rid : String) (room : GameRoom)
    (player : Player) (d : MoveDir)
    (hmap : gm.playerToRoom.get p = some rid)
    (hroom : gm.rooms.get rid = some room)
    (hplayer : room.players.get p = some player)
    (hconn : player.connected = true) :
    (gm.movePaddle p d).2 = some rid ∧
    (gm.movePaddle p d).1.waitingPlayers = gm.waitingPlayers ∧
    (gm.movePaddle p d).1.playerToRoom = gm.playerToRoom ∧
    (∀ r, r ≠ rid → (gm.movePaddle p d).1.rooms.get r = gm.rooms.get r) ∧
    (∃ room',
      (gm.movePaddle p d).1.rooms.get rid = some room' ∧
      room'.id = room.id ∧
      room'.gameLoopIntervalId = room.gameLoopIntervalId ∧
      room'.gameState.ball = room.gameState.ball ∧
      room'.gameState.gameActive = room.gameState.gameActive ∧
      room'.gameState.winner = room.gameState.winner ∧
      (∀ q, q ≠ p → room'.players.get q = room.players.get q) ∧
      room'.players.get p =
        some { player with paddle := { player.paddle with
          y := match d with
            | .up => max 0 (player.paddle.y - PADDLE_SPEED)
            | .down => min (GAME_HEIGHT - PADDLE_HEIGHT) (player.paddle.y + PADDLE_SPEED) } } ∧
      (player.side = .left → room'.gameState.players.right = room.gameState.players.right) ∧
      (player.side = .right → room'.gameState.players.left = room.gameState.players.left)) := by
  have hmove : gm.movePaddle p d =
      ({ gm with
           rooms := gm.rooms.set rid
             ({ room with
                  players := room.players.set p
                    ({ player with paddle := { player.paddle with
                        y := match d with
                          | .up => max 0 (player.paddle.y - PADDLE_SPEED)
                          | .down =>
                            min (GAME_HEIGHT - PADDLE_HEIGHT)
                              (player.paddle.y + PADDLE_SPEED) } })
                  gameState := room.gameState.setSide player.side
                    (some { player with paddle := { player.paddle with
                        y := match d with
                          | .up => max 0 (player.paddle.y - PADDLE_SPEED)
                          | .down =>
                            min (GAME_HEIGHT - PADDLE_HEIGHT)
                              (player.paddle.y + PADDLE_SPEED) } }) }) },
       some rid) := by
    simp [GameManager.movePaddle, hmap, hroom, hplayer, hconn]
  rw [hmove]
  refine ⟨rfl, rfl, rfl, ?_, ?_⟩
  · intro r hr
    exact SMap.get_set_ne _ _ _ _ hr
  · refine ⟨_, SMap.get_set_self _ _ _, rfl, rfl, ?_, ?_, ?_, ?_, ?_, ?_, ?_⟩
  
    · cases player.side <;> simp [GameState.setSide]
    · cases player.side <;> simp [GameState.setSide]
    · cases player.side <;> simp [GameState.setSide]
    · intro q hq
      exact SMap.get_set_ne _ _ _ _ hq
    · exact SMap.get_set_self _ _ _
    · intro hs
      rw [hs]
      simp [GameState.setSide]
    · intro hs
      rw [hs]
      simp [GameState.setSide]

/-- Witness for `movePaddle_frame` at a concrete input. -/
theorem movePaddle_frame_witness :
    (gmFix.playerToRoom.get "a" = some "r" ∧
      gmFix.rooms.get "r" = some roomFix ∧
      roomFix.players.get "a" = some paFix ∧
      paFix.connected = true) ∧
    ((gmFix.movePaddle "a" .up).2 = some "r" ∧
      (gmFix.movePaddle "a" .up).1.waitingPlayers = gmFix.waitingPlayers ∧
      (gmFix.movePaddle "a" .up).1.playerToRoom = gmFix.playerToRoom ∧
      (∀ r, r ≠ "r" → (gmFix.movePaddle "a" .up).1.rooms.get r = gmFix.rooms.get r) ∧
      (∃ room',
        (gmFix.movePaddle "a" .up).1.rooms.get "r" = some room' ∧
        room'.id = roomFix.id ∧
        room'.gameLoopIntervalId = roomFix.gameLoopIntervalId ∧
        room'.gameState.ball = roomFix.gameState.ball ∧
        room'.gameState.gameActive = roomFix.gameState.gameActive ∧
        room'.gameState.winner = roomFix.gameState.winner ∧
        (∀ q, q ≠ "a" → room'.players.get q = roomFix.players.get q) ∧
        room'.players.get "a" =
          some { paFix with paddle := { paFix.paddle with
            y := match MoveDir.up with
              | .up => max 0 (paFix.paddle.y - PADDLE_SPEED)
              | .down => min (GAME_HEIGHT - PADDLE_HEIGHT) (paFix.paddle.y + PADDLE_SPEED) } } ∧
        (paFix.side = .left → room'.gameState.players.right = roomFix.gameState.players.right) ∧
        (paFix.side = .right → room'.gameState.players.left = roomFix.gameState.players.left))) :=
  ⟨⟨rfl, rfl, rfl, rfl⟩,
   movePaddle_frame gmFix "a" "r" roomFix paFix .up rfl rfl rfl rfl⟩

/-! ## C7 -/

/-- One `movePaddle` call keeps the player's paddle `y` inside
`[0, GAME_HEIGHT - PADDLE_HEIGHT]` whenever it was inside before. -/
theorem movePaddle_paddleY_bounds (gm : GameManager) (p : String) (d : MoveDir)
    (h : ∀ y, gm.paddleY p = some y → 0 ≤ y ∧ y ≤ GAME_HEIGHT - PADDLE_HEIGHT) :
    ∀ y, (gm.movePaddle p d).1.paddleY p = some y → 0 ≤ y ∧ y ≤ GAME_HEIGHT - PADDLE_HEIGHT := by
  rcases hmap : gm.playerToRoom.get p with _ | rid
  · simpa [GameManager.movePaddle, hmap] using h
  · rcases hroom : gm.rooms.get rid with _ | room
    · simpa [GameManager.movePaddle, hmap, hroom] using h
    · rcases hplayer : room.players.get p with _ | player
      · simpa [GameManager.movePaddle, hmap, hroom, hplayer] using h
      · rcases hconn : player.connected with _ | _
        · simpa [GameManager.movePaddle, hmap, hroom, hplayer, hconn] using h
        · have hold : 0 ≤ player.paddle.y ∧ player.paddle.y ≤ GAME_HEIGHT - PADDLE_HEIGHT := by
            apply h
            simp [GameManager.paddleY, hmap, hroom, hplayer]
          intro y hy
          cases d
          · simp [GameManager.movePaddle, hmap, hroom, hplayer, hconn,
              GameManager.paddleY, SMap.get_set_self] at hy
            constructor
            · rw [← hy]
              exact le_max_left _ _
            · rw [← hy]
              apply max_le
              · norm_num [GAME_HEIGHT, PADDLE_HEIGHT]
              · have h2 := hold.2
                simp only [PADDLE_SPEED]
                linarith
          · simp [GameManager.movePaddle, hmap, hroom, hplayer, hconn,
              GameManager.paddleY, SMap.get_set_self] at hy
            constructor
            · rw [← hy]
              apply le_min
              · norm_num [GAME_HEIGHT, PADDLE_HEIGHT]
              · have h1 := hold.1
                simp only [PADDLE_SPEED]
                linarith
            · rw [← hy]
              exact min_le_left _ _

/-- C7: for every player whose paddle `y` starts in
`[0, GAME_HEIGHT - PADDLE_HEIGHT] = [0, 320]`, the paddle `y` is still in that
interval after any finite sequence of `movePaddle` intents (in any order,
including repeated same-direction calls at the boundary). -/
theorem paddle_stays_in_bounds (gm : GameManager) (p : String) (ds : List MoveDir)
    (h : ∀ y, gm.paddleY p = some y → 0 ≤ y ∧ y ≤ GAME_HEIGHT - PADDLE_HEIGHT) :
    ∀ y, (applyMoves p gm ds).paddleY p = some y →
      0 ≤ y ∧ y ≤ GAME_HEIGHT - PADDLE_HEIGHT := by
  induction ds generalizing gm with
  | nil => exact h
  | cons d ds ih =>
    simp only [applyMoves]
    exact ih _ (movePaddle_paddleY_bounds gm p d h)

/-- Witness for `paddle_stays_in_bounds` at a concrete input. -/
theorem paddle_stays_in_bounds_witness :
    (∀ y, gmFix.paddleY "a" = some y → 0 ≤ y ∧ y ≤ GAME_HEIGHT - PADDLE_HEIGHT) ∧
    (∀ y, (applyMoves "a" gmFix [.up, .up, .down]).paddleY "a" = some y →
      0 ≤ y ∧ y ≤ GAME_HEIGHT - PADDLE_HEIGHT) := by
  have hstart : ∀ y, gmFix.paddleY "a" = some y →
      0 ≤ y ∧ y ≤ GAME_HEIGHT - PADDLE_HEIGHT := by
    intro y hy
    have hval : gmFix.paddleY "a" = some (GAME_HEIGHT / 2 - PADDLE_HEIGHT / 2) := rfl
    rw [hval] at hy
    have hy' := (Option.some.inj hy).symm
    subst hy'
    norm_num [GAME_HEIGHT, PADDLE_HEIGHT]
  exact ⟨hstart, paddle_stays_in_bounds gmFix "a" [.up, .up, .down] hstart⟩

/-! ## C2 -/

/-- C2: in a session holding two distinct connected players, a `removePlayer`
call for either one leaves the session in the registry, marks it inactive,
records the other player as winner, and clears the stored tick interval
handle. -/
theorem removePlayer_forfeits_to_other (gm : GameManager) (rid x a b : String)
    (room : GameRoom) (pa pb : Player)
    (hx : x = a ∨ x = b)
    (hw : x ∉ gm.waitingPlayers)
    (hmap : gm.playerToRoom.get x = some rid)
    (hroom : gm.rooms.get rid = some room)
    (hplayers : room.players = [(a, pa), (b, pb)])
    (hpaid : pa.id = a) (hpbid : pb.id = b)
    (hpac : pa.connected = true) (hpbc : pb.connected = true)
    (hab : a ≠ b) :
    (gm.removePlayer x).2 =
      some { roomId := rid, disconnectedSide := if x = a then pa.side else pb.side } ∧
    (∃ room',
      (gm.removePlayer x).1.rooms.get rid = some room' ∧
      room'.gameState.gameActive = false ∧
      room'.gameState.winner = some (if x = a then b else a) ∧
      room'.gameLoopIntervalId = room.gameLoopIntervalId.map (fun _ => false)) := by
  rcases hx with rfl | rfl
  · have hstep : gm.removePlayer x =
        ({ gm with
             rooms := gm.rooms.set rid
               ({ room with
                    players := [(x, { pa with connected := false }), (b, pb)]
                    gameState :=
                      { room.gameState.setSide pa.side none with
                          gameActive := false
                          winner := some pb.id }
                    gameLoopIntervalId := room.gameLoopIntervalId.map (fun _ => false) })
             playerToRoom := gm.playerToRoom.del x },
         some { roomId := rid, disconnectedSide := pa.side }) := by
      simp [GameManager.removePlayer, hw, hmap, hroom, hplayers, SMap.get, SMap.set,
        SMap.values, hpaid, hpbid, hpac, hpbc, Ne.symm hab]
    rw [hstep]
    refine ⟨by simp, _, SMap.get_set_self _ _ _, rfl, ?_, rfl⟩
    rw [hpbid]
    simp
  · have hstep : gm.removePlayer x =
        ({ gm with
             rooms := gm.rooms.set rid
               ({ room with
                    players := [(a, pa), (x, { pb with connected := false })]
                    gameState :=
                      { room.gameState.setSide pb.side none with
                          gameActive := false
                          winner := some pa.id }
                    gameLoopIntervalId := room.gameLoopIntervalId.map (fun _ => false) })
             playerToRoom := gm.playerToRoom.del x },
         some { roomId := rid, disconnectedSide := pb.side }) := by
      simp [GameManager.removePlayer, hw, hmap, hroom, hplayers, SMap.get, SMap.set,
        SMap.values, hpaid, hpbid, hpac, hpbc, hab, Ne.symm hab]
    rw [hstep]
    refine ⟨by simp [Ne.symm hab], _, SMap.get_set_self _ _ _, rfl, ?_, rfl⟩
    rw [hpaid]
    simp [Ne.symm hab]

/-- Witness for `removePlayer_forfeits_to_other` at a concrete input. -/
theorem removePlayer_forfeits_to_other_witness :
    (("a" = "a" ∨ "a" = "b") ∧ "a" ∉ gmFix.waitingPlayers ∧
      gmFix.playerToRoom.get "a" = some "r" ∧
      gmFix.rooms.get "r" = some roomFix ∧
      roomFix.players = [("a", paFix), ("b", pbFix)] ∧
      paFix.id = "a" ∧ pbFix.id = "b" ∧
      paFix.connected = true ∧ pbFix.connected = true ∧
      "a" ≠ "b") ∧
    ((gmFix.removePlayer "a").2 =
        some { roomId := "r"
               disconnectedSide := if "a" = "a" then paFix.side else pbFix.side } ∧
      (∃ room',
        (gmFix.removePlayer "a").1.rooms.get "r" = some room' ∧
        room'.gameState.gameActive = false ∧
        room'.gameState.winner = some (if "a" = "a" then "b" else "a") ∧
        room'.gameLoopIntervalId = roomFix.gameLoopIntervalId.map (fun _ => false))) :=
  ⟨⟨Or.inl rfl, by decide, rfl, rfl, rfl, rfl, rfl, rfl, rfl, by decide⟩,
   removePlayer_forfeits_to_other gmFix "r" "a" "a" "b" roomFix paFix pbFix
     (Or.inl rfl) (by decide) rfl rfl rfl rfl rfl rfl rfl (by decide)⟩

/-- C5 (amended): if both players of a two-player session with both slots
connected disconnect, in either order, the session is removed from the
registry and both player mappings are gone; the tick interval handle is
cleared by the first disconnect — but that first disconnect also records the
remaining player as forfeit winner before the second disconnect destroys the
session, so a winner is transiently assigned. -/
theorem both_disconnect_destroys_session (gm : GameManager) (rid x y a b : String)
    (room : GameRoom) (pa pb : Player)
    (hxy : (x = a ∧ y = b) ∨ (x = b ∧ y = a))
    (hwx : x ∉ gm.waitingPlayers) (hwy : y ∉ gm.waitingPlayers)
    (hmapa : gm.playerToRoom.get a = some rid)
    (hmapb : gm.playerToRoom.get b = some rid)
    (hroom : gm.rooms.get rid = some room)
    (hplayers : room.players = [(a, pa), (b, pb)])
    (hpaid : pa.id = a) (hpbid : pb.id = b)
    (hpac : pa.connected = true) (hpbc : pb.connected = true)
    (hab : a ≠ b) :
    (∃ room1,
      (gm.removePlayer x).1.rooms.get rid = some room1 ∧
      room1.gameState.winner = some y ∧
      room1.gameLoopIntervalId = room.gameLoopIntervalId.map (fun _ => false)) ∧
    ((gm.removePlayer x).1.removePlayer y).1.rooms.get rid = none ∧
    ((gm.removePlayer x).1.removePlayer y).1.playerToRoom.get a = none ∧
    ((gm.removePlayer x).1.removePlayer y).1.playerToRoom.get b = none := by
  rcases hxy with ⟨rfl, rfl⟩ | ⟨rfl, rfl⟩
  · have hstep1 : gm.removePlayer x =
        ({ gm with
             rooms := gm.rooms.set rid
               ({ room with
                    players := [(x, { pa with connected := false }), (y, pb)]
                    gameState :=
                      { room.gameState.setSide pa.side none with
                          gameActive := false
                          winner := some pb.id }
                    gameLoopIntervalId := room.gameLoopIntervalId.map (fun _ => false) })
             playerToRoom := gm.playerToRoom.del x },
         some { roomId := rid, disconnectedSide := pa.side }) := by
      simp [GameManager.removePlayer, hwx, hmapa, hroom, hplayers, SMap.get, SMap.set,
        SMap.values, hpaid, hpbid, hpac, hpbc, Ne.symm hab]
    rw [hstep1]
    have hmapb1 : (gm.playerToRoom.del x).get y = some rid := by
      rw [SMap.get_del_ne _ _ _ (Ne.symm hab)]
      exact hmapb
    have hstep2 :
        GameManager.removePlayer
          { gm with
              rooms := gm.rooms.set rid
                ({ room with
                     players := [(x, { pa with connected := false }), (y, pb)]
                     gameState :=
                       { room.gameState.setSide pa.side none with
                           gameActive := false
                           winner := some pb.id }
                     gameLoopIntervalId := room.gameLoopIntervalId.map (fun _ => false) })
              playerToRoom := gm.playerToRoom.del x } y =
        ({ gm with
             rooms := (gm.rooms.set rid
               ({ room with
                    players := [(x, { pa with connected := false }), (y, pb)]
                    gameState :=
                      { room.gameState.setSide pa.side none with
                          gameActive := false
                          winner := some pb.id }
                    gameLoopIntervalId :=
                      room.gameLoopIntervalId.map (fun _ => false) })).del rid
             playerToRoom := (gm.playerToRoom.del x).del y },
         some { roomId := rid, disconnectedSide := pb.side }) := by
      simp [GameManager.removePlayer, hwy, hmapb1, SMap.get_set_self, SMap.get, SMap.set,
        SMap.values, hpaid, hpbid, hpbc, hab, Ne.symm hab]
    rw [hstep2]
    refine ⟨⟨_, SMap.get_set_self _ _ _, ?_, rfl⟩, SMap.get_del_self _ _, ?_, ?_⟩
    · rw [hpbid]
    · rw [SMap.get_del_ne _ _ _ hab, SMap.get_del_self]
    · rw [SMap.get_del_self]
  · have hstep1 : gm.removePlayer x =
        ({ gm with
             rooms := gm.rooms.set rid
               ({ room with
                    players := [(y, pa), (x, { pb with connected := false })]
                    gameState :=
                      { room.gameState.setSide pb.side none with
                          gameActive := false
                          winner := some pa.id }
                    gameLoopIntervalId := room.gameLoopIntervalId.map (fun _ => false) })
             playerToRoom := gm.playerToRoom.del x },
         some { roomId := rid, disconnectedSide := pb.side }) := by
      simp [GameManager.removePlayer, hwx, hmapb, hroom, hplayers, SMap.get, SMap.set,
        SMap.values, hpaid, hpbid, hpac, hpbc, hab, Ne.symm hab]
    rw [hstep1]
    have hmapa1 : (gm.playerToRoom.del x).get y = some rid := by
      rw [SMap.get_del_ne _ _ _ hab]
      exact hmapa
    have hstep2 :
        GameManager.removePlayer
          { gm with
              rooms := gm.rooms.set rid
                ({ room with
                     players := [(y, pa), (x, { pb with connected := false })]
                     gameState :=
                       { room.gameState.setSide pb.side none with
                           gameActive := false
                           winner := some pa.id }
                     gameLoopIntervalId := room.gameLoopIntervalId.map (fun _ => false) })
              playerToRoom := gm.playerToRoom.del x } y =
        ({ gm with
             rooms := (gm.rooms.set rid
               ({ room with
                    players := [(y, pa), (x, { pb with connected := false })]
                    gameState :=
                      { room.gameState.setSide pb.side none with
                          gameActive := false
                          winner := some pa.id }
                    gameLoopIntervalId :=
                      room.gameLoopIntervalId.map (fun _ => false) })).del rid
             playerToRoom := (gm.playerToRoom.del x).del y },
         some { roomId := rid, disconnectedSide := pa.side }) := by
      simp [GameManager.removePlayer, hwy, hmapa1, SMap.get_set_self, SMap.get, SMap.set,
        SMap.values, hpaid, hpbid, hpac, hab, Ne.symm hab]
    rw [hstep2]
    refine ⟨⟨_, SMap.get_set_self _ _ _, ?_, rfl⟩, SMap.get_del_self _ _, ?_, ?_⟩
    · rw [hpaid]
    · rw [SMap.get_del_self]
    · rw [SMap.get_del_ne _ _ _ (Ne.symm hab), SMap.get_del_self]

/-- Witness for `both_disconnect_destroys_session` at a concrete input. -/
theorem both_disconnect_destroys_session_witness :
    ((("a" = "a" ∧ "b" = "b") ∨ ("a" = "b" ∧ "b" = "a")) ∧
      "a" ∉ gmFix.waitingPlayers ∧ "b" ∉ gmFix.waitingPlayers ∧
      gmFix.playerToRoom.get "a" = some "r" ∧
      gmFix.playerToRoom.get "b" = some "r" ∧
      gmFix.rooms.get "r" = some roomFix ∧
      roomFix.players = [("a", paFix), ("b", pbFix)] ∧
      paFix.id = "a" ∧ pbFix.id = "b" ∧
      paFix.connected = true ∧ pbFix.connected = true ∧ "a" ≠ "b") ∧
    ((∃ room1,
        (gmFix.removePlayer "a").1.rooms.get "r" = some room1 ∧
        room1.gameState.winner = some "b" ∧
        room1.gameLoopIntervalId = roomFix.gameLoopIntervalId.map (fun _ => false)) ∧
      ((gmFix.removePlayer "a").1.removePlayer "b").1.rooms.get "r" = none ∧
      ((gmFix.removePlayer "a").1.removePlayer "b").1.playerToRoom.get "a" = none ∧
      ((gmFix.removePlayer "a").1.removePlayer "b").1.playerToRoom.get "b" = none) :=
  ⟨⟨Or.inl ⟨rfl, rfl⟩, by decide, by decide, rfl, rfl, rfl, rfl, rfl, rfl, rfl, rfl,
    by decide⟩,
   both_disconnect_destroys_session gmFix "r" "a" "b" "a" "b" roomFix paFix pbFix
     (Or.inl ⟨rfl, rfl⟩) (by decide) (by decide) rfl rfl rfl rfl rfl rfl rfl rfl
     (by decide)⟩

/-! ## C4 -/

/-- `addPlayer` keeps the waiting queue at length at most one (its reachable
invariant: entries are appended only when the queue is empty, or re-queued
after popping). -/
theorem addPlayer_queue_short (gm : GameManager) (p nrid : String) (rng : Rng)
    (hlen : gm.waitingPlayers.length ≤ 1) :
    (gm.addPlayer p nrid rng).1.waitingPlayers.length ≤ 1 := by
  have core : ∀ gm' : GameManager, gm'.waitingPlayers = gm.waitingPlayers →
      (gm'.matchmake p nrid rng).1.waitingPlayers.length ≤ 1 := by
    intro gm' hw
    rcases hW : gm'.waitingPlayers with _ | ⟨q, rest⟩
    · simp [GameManager.matchmake, hW]
    · have hrest : rest = [] := by
        rw [hw] at hW
        rw [hW] at hlen
        simpa using hlen
      subst hrest
      by_cases hqp : q = p <;> simp [GameManager.matchmake, hW, hqp]
  rcases hmap : gm.playerToRoom.get p with _ | rid
  · simp only [GameManager.addPlayer, hmap]
    exact core gm rfl
  · rcases hroom : gm.rooms.get rid with _ | room
    · simp only [GameManager.addPlayer, hmap, hroom]
      exact core _ rfl
    · rcases hp : room.players.get p with _ | player
      · simp only [GameManager.addPlayer, hmap, hroom, hp]
        exact core _ rfl
      · simp [GameManager.addPlayer, hmap, hroom, hp]
        exact hlen

/-- `removePlayer` never lengthens the waiting queue. -/
theorem removePlayer_queue_short (gm : GameManager) (p : String)
    (hlen : gm.waitingPlayers.length ≤ 1) :
    (gm.removePlayer p).1.waitingPlayers.length ≤ 1 := by
  by_cases hw : p ∈ gm.waitingPlayers
  · simp only [GameManager.removePlayer, hw, if_true]
    calc (gm.waitingPlayers.erase p).length ≤ gm.waitingPlayers.length :=
          List.length_erase_le _ _
      _ ≤ 1 := hlen
  · rcases hmap : gm.playerToRoom.get p with _ | rid
    · simpa [GameManager.removePlayer, hw, hmap] using hlen
    · rcases hroom : gm.rooms.get rid with _ | room
      · simpa [GameManager.removePlayer, hw, hmap, hroom] using hlen
      · rcases hp : room.players.get p with _ | player
        · simpa [GameManager.removePlayer, hw, hmap, hroom, hp] using hlen
        · simp [GameManager.removePlayer, hw, hmap, hroom, hp]
          split <;> simpa using hlen

/-- C4: a join from an id that is already waiting in the queue, or already
mapped to a registered session containing it, never creates a duplicate queue
entry for that id and never creates a session: the queue still holds the id at
most once and the room registry's key set and size are unchanged. -/
theorem join_of_queued_or_paired (gm : GameManager) (p nrid : String) (rng : Rng)
    (hlen : gm.waitingPlayers.length ≤ 1)
    (hmem : p ∈ gm.waitingPlayers ∨
      ∃ rid room, gm.playerToRoom.get p = some rid ∧ gm.rooms.get rid = some room ∧
        (room.players.get p).isSome) :
    List.count p (gm.addPlayer p nrid rng).1.waitingPlayers ≤ 1 ∧
    (gm.addPlayer p nrid rng).1.waitingPlayers.length ≤ 1 ∧
    (gm.addPlayer p nrid rng).1.rooms.size = gm.rooms.size ∧
    (∀ r, ((gm.addPlayer p nrid rng).1.rooms.get r).isSome = (gm.rooms.get r).isSome) := by
  by_cases hvalid : ∃ rid room player, gm.playerToRoom.get p = some rid ∧
      gm.rooms.get rid = some room ∧ room.players.get p = some player
  · obtain ⟨rid, room, player, hmap, hroom, hp⟩ := hvalid
    have hstep : gm.addPlayer p nrid rng =
        ({ gm with
             rooms := gm.rooms.set rid
               ({ room with
                    players := room.players.set p { player with connected := true }
                    gameState := room.gameState.setSide player.side
                      (some { player with connected := true }) }) },
         some { roomId := rid, side := player.side, isNewGame := false
                waitingPlayerId := none }) := by
      simp [GameManager.addPlayer, hmap, hroom, hp]
    rw [hstep]
    have hsome : (gm.rooms.get rid).isSome := by
      rw [hroom]
      rfl
    exact ⟨le_trans (List.count_le_length _ _) hlen, hlen,
      SMap.size_set_of_isSome _ _ _ hsome,
      fun r => SMap.isSome_get_set _ _ _ _ hsome⟩
  · have hq : p ∈ gm.waitingPlayers := by
      rcases hmem with hq | ⟨rid, room, hmap, hroom, hplayer⟩
      · exact hq
      · exact absurd ⟨rid, room, (Option.isSome_iff_exists.mp hplayer).choose, hmap, hroom,
          (Option.isSome_iff_exists.mp hplayer).choose_spec⟩ hvalid
    have hq1 : gm.waitingPlayers = [p] := by
      rcases hL : gm.waitingPlayers with _ | ⟨q, rest⟩
      · rw [hL] at hq
        simp at hq
      · rw [hL] at hq hlen
        have hrest : rest = [] := by simpa using hlen
        subst hrest
        simp at hq
        rw [hq]
    rcases hmap : gm.playerToRoom.get p with _ | rid
    · have hstep : gm.addPlayer p nrid rng =
          ({ gm with waitingPlayers := [] ++ [p] }, none) := by
        simp [GameManager.addPlayer, GameManager.matchmake, hmap, hq1]
      rw [hstep]
      exact ⟨by simp, by simp, rfl, fun r => rfl⟩
    · rcases hroom : gm.rooms.get rid with _ | room
      · have hstep : gm.addPlayer p nrid rng =
            ({ gm with playerToRoom := gm.playerToRoom.del p
                       waitingPlayers := [] ++ [p] }, none) := by
          simp [GameManager.addPlayer, GameManager.matchmake, hmap, hroom, hq1]
        rw [hstep]
        exact ⟨by simp, by simp, rfl, fun r => rfl⟩
      · rcases hp : room.players.get p with _ | player
        · have hstep : gm.addPlayer p nrid rng =
              ({ gm with playerToRoom := gm.playerToRoom.del p
                         waitingPlayers := [] ++ [p] }, none) := by
            simp [GameManager.addPlayer, GameManager.matchmake, hmap, hroom, hp, hq1]
          rw [hstep]
          exact ⟨by simp, by simp, rfl, fun r => rfl⟩
        · exact absurd ⟨rid, room, player, hmap, hroom, hp⟩ hvalid

/-- Witness for `join_of_queued_or_paired` at a concrete input. -/
theorem join_of_queued_or_paired_witness :
    ((GameManager.mk [] ["p"] []).waitingPlayers.length ≤ 1 ∧
      ("p" ∈ (GameManager.mk [] ["p"] []).waitingPlayers ∨
        ∃ rid room, (GameManager.mk [] ["p"] []).playerToRoom.get "p" = some rid ∧
          (GameManager.mk [] ["p"] []).rooms.get rid = some room ∧
          (room.players.get "p").isSome)) ∧
    (List.count "p" ((GameManager.mk [] ["p"] []).addPlayer "p" "nr" rngT).1.waitingPlayers ≤ 1 ∧
      ((GameManager.mk [] ["p"] []).addPlayer "p" "nr" rngT).1.waitingPlayers.length ≤ 1 ∧
      ((GameManager.mk [] ["p"] []).addPlayer "p" "nr" rngT).1.rooms.size =
        (GameManager.mk [] ["p"] []).rooms.size ∧
      (∀ r, (((GameManager.mk [] ["p"] []).addPlayer "p" "nr" rngT).1.rooms.get r).isSome =
        ((GameManager.mk [] ["p"] []).rooms.get r).isSome)) :=
  ⟨⟨by decide, Or.inl (by decide)⟩,
   join_of_queued_or_paired (GameManager.mk [] ["p"] []) "p" "nr" rngT
     (by decide) (Or.inl (by decide))⟩

/-! ## C3 -/

theorem self_eq_score_succ_iff (q : Player) :
    (q = { q with score := q.score + 1 }) ↔ False := by
  cases q
  simp

theorem score_succ_eq_self_iff (q : Player) :
    (({ q with score := q.score + 1 } : Player) = q) ↔ False := by
  cases q
  simp

set_option maxRecDepth 4000 in
/-- One physics step ends the game (sets `gameActive := false`) exactly when it
sets a winner, and it sets winner `w` exactly when the slot owned by `w` just
scored its fifth (or later) point. -/
theorem stepPhysics_win_iff (rng : Rng) (gs : GameState)
    (hactive : gs.gameActive = true) (hw : gs.winner = none) :
    ((stepPhysics rng gs).1.gameActive = false ↔ ∃ w, (stepPhysics rng gs).1.winner = some w) ∧
    (∀ w, (stepPhysics rng gs).1.winner = some w ↔
      ((∃ rp, gs.players.right = some rp ∧
          (stepPhysics rng gs).1.players.right = some { rp with score := rp.score + 1 } ∧
          rp.score + 1 ≥ 5 ∧ w = rp.id) ∨
       (∃ lp, gs.players.left = some lp ∧
          (stepPhysics rng gs).1.players.left = some { lp with score := lp.score + 1 } ∧
          lp.score + 1 ≥ 5 ∧ w = lp.id))) := by
  rcases hR : gs.players.right with _ | rp <;> rcases hL : gs.players.left with _ | lp <;>
    simp only [stepPhysics, hR, hL] <;>
    split_ifs <;>
    simp [resetBall, self_eq_score_succ_iff, score_succ_eq_self_iff, hw, hactive, hR, hL]
  all_goals try omega
  all_goals intro w
  all_goals
    constructor
    · rintro rfl
      exact ⟨by omega, rfl⟩
    · rintro ⟨h4, rfl⟩
      rfl

/-- C3: a tick (`updateBall`) of an active, winnerless session moves it to the
ended state (`gameActive = false`) exactly when it assigns a winner, and the
winner is some player id `w` exactly when `w`'s slot scored on this tick and
its score thereby reached the threshold 5. -/
theorem updateBall_win_iff (gm : GameManager) (rid : String) (rng : Rng) (room : GameRoom)
    (hroom : gm.rooms.get rid = some room)
    (hactive : room.gameState.gameActive = true)
    (hw : room.gameState.winner = none) :
    ∃ room',
      (gm.updateBall rid rng).1.rooms.get rid = some room' ∧
      (room'.gameState.gameActive = false ↔ ∃ w, room'.gameState.winner = some w) ∧
      (∀ w, room'.gameState.winner = some w ↔
        ((∃ rp, room.gameState.players.right = some rp ∧
            room'.gameState.players.right = some { rp with score := rp.score + 1 } ∧
            rp.score + 1 ≥ 5 ∧ w = rp.id) ∨
         (∃ lp, room.gameState.players.left = some lp ∧
            room'.gameState.players.left = some { lp with score := lp.score + 1 } ∧
            lp.score + 1 ≥ 5 ∧ w = lp.id))) := by
  have hstep : gm.updateBall rid rng =
      ({ gm with
           rooms := gm.rooms.set rid
             ({ room with
                  gameState := (stepPhysics rng room.gameState).1
                  players := syncPlayers room.players (stepPhysics rng room.gameState).1 }) },
       (stepPhysics rng room.gameState).2) := by
    simp [GameManager.updateBall, hroom, hactive]
  rw [hstep]
  exact ⟨_, SMap.get_set_self _ _ _,
    (stepPhysics_win_iff rng room.gameState hactive hw).1,
    (stepPhysics_win_iff rng room.gameState hactive hw).2⟩

/-- Witness for `updateBall_win_iff` at a concrete input. -/
theorem updateBall_win_iff_witness :
    (gmFix.rooms.get "r" = some roomFix ∧
      roomFix.gameState.gameActive = true ∧
      roomFix.gameState.winner = none) ∧
    (∃ room',
      (gmFix.updateBall "r" rngT).1.rooms.get "r" = some room' ∧
      (room'.gameState.gameActive = false ↔ ∃ w, room'.gameState.winner = some w) ∧
      (∀ w, room'.gameState.winner = some w ↔
        ((∃ rp, roomFix.gameState.players.right = some rp ∧
            room'.gameState.players.right = some { rp with score := rp.score + 1 } ∧
            rp.score + 1 ≥ 5 ∧ w = rp.id) ∨
         (∃ lp, roomFix.gameState.players.left = some lp ∧
            room'.gameState.players.left = some { lp with score := lp.score + 1 } ∧
            lp.score + 1 ≥ 5 ∧ w = lp.id)))) :=
  ⟨⟨rfl, rfl, rfl⟩, updateBall_win_iff gmFix "r" rngT roomFix rfl rfl rfl⟩

/-! ## C6 -/

/-- With no left slot and a leftward-moving ball, one collision step leaves
`vx` unchanged and advances `x` by exactly `vx`. -/
theorem moveAndCollide_left_absent (gs : GameState)
    (hL : gs.players.left = none) (hvx : gs.ball.vx < 0) :
    (moveAndCollide gs).x = gs.ball.x + gs.ball.vx ∧
    (moveAndCollide gs).vx = gs.ball.vx := by
  rcases hR : gs.players.right with _ | rp <;>
    simp only [moveAndCollide, hL, hR]
  · simp
  · rw [if_neg]
    · simp
    · rintro ⟨h1, h2⟩
      exact absurd h1 (not_lt.mpr hvx.le)

/-- The family of states traversed in the C6 scenario: one registered room,
left slot empty, right slot `p`, ball moving left at 3 units per tick. -/
def C6Inv (rid : String) (p : Player) (n : ℕ) (gm : GameManager) : Prop :=
  ∃ room, gm.rooms.get rid = some room ∧
    room.gameState.players.left = none ∧
    room.gameState.players.right = some p ∧
    room.gameState.gameActive = true ∧
    room.gameState.winner = none ∧
    room.gameState.ball.x = 400 - 3 * n ∧
    room.gameState.ball.vx = -3 ∧
    room.players = [(p.id, p)]

theorem c6_step (gm : GameManager) (rid : String) (p : Player) (rng : Rng) (n : ℕ)
    (hn : n ≤ 132) (hInv : C6Inv rid p n gm) :
    C6Inv rid p (n + 1) (gm.updateBall rid rng).1 ∧ (gm.updateBall rid rng).2 = false := by
  obtain ⟨room, hg, hL, hR, hact, hwin, hx, hvx, hmap⟩ := hInv
  have hvxneg : room.gameState.ball.vx < 0 := by
    rw [hvx]
    norm_num
  have hmc := moveAndCollide_left_absent room.gameState hL hvxneg
  have hnq : (n : ℚ) ≤ 132 := by exact_mod_cast hn
  have hnq0 : (0 : ℚ) ≤ (n : ℚ) := Nat.cast_nonneg n
  have hbound0 : ¬ (moveAndCollide room.gameState).x < 0 := by
    rw [hmc.1, hx, hvx]
    push_neg
    linarith
  have hbound8 : ¬ (moveAndCollide room.gameState).x > GAME_WIDTH := by
    rw [hmc.1, hx, hvx]
    push_neg
    simp only [GAME_WIDTH]
    linarith
  have hstepPhys : stepPhysics rng room.gameState =
      ({ room.gameState with ball := moveAndCollide room.gameState }, false) := by
    simp only [stepPhysics]
    rw [if_neg hbound0, if_neg hbound8]
  have hstep : gm.updateBall rid rng =
      ({ gm with
           rooms := gm.rooms.set rid
             ({ room with
                  gameState := { room.gameState with ball := moveAndCollide room.gameState }
                  players := [(p.id, p)] }) },
       false) := by
    simp [GameManager.updateBall, hg, hact, hstepPhys, syncPlayers, hL, hR, hmap, SMap.set]
  rw [hstep]
  refine ⟨⟨_, SMap.get_set_self _ _ _, hL, hR, hact, hwin, ?_, ?_, rfl⟩, rfl⟩
  · rw [hmc.1, hx, hvx]
    push_cast
    ring
  · rw [hmc.2, hvx]

theorem iterateTicks_succ (roomId : String) (rngs : ℕ → Rng) (gm : GameManager) (n : ℕ) :
    iterateTicks roomId rngs gm (n + 1) =
      ((iterateTicks roomId rngs gm n).updateBall roomId (rngs n)).1 := rfl

theorem c6_final (gm : GameManager) (rid : String) (p : Player) (rng : Rng)
    (hscore : p.score = 0) (hInv : C6Inv rid p 133 gm) :
    (gm.updateBall rid rng).2 = true ∧
    ∃ room', (gm.updateBall rid rng).1.rooms.get rid = some room' ∧
      room'.gameState.ball.x = 400 ∧
      room'.gameState.ball.y = 200 ∧
      3/2 ≤ |room'.gameState.ball.vy| ∧
      room'.gameState.players.right = some { p with score := 1 } := by
  obtain ⟨room, hg, hL, hR, hact, hwin, hx, hvx, hmap⟩ := hInv
  have hvxneg : room.gameState.ball.vx < 0 := by
    rw [hvx]
    norm_num
  have hmc := moveAndCollide_left_absent room.gameState hL hvxneg
  have hbound : (moveAndCollide room.gameState).x < 0 := by
    rw [hmc.1, hx, hvx]
    norm_num
  have hstepPhys : stepPhysics rng room.gameState =
      (resetBall rng
        { room.gameState with
            ball := moveAndCollide room.gameState
            players := { room.gameState.players with
                           right := some { p with score := p.score + 1 } } }, true) := by
    simp only [stepPhysics]
    rw [if_pos hbound]
    simp only [hR]
    rw [if_neg]
    simp [hscore]
  have hstep : gm.updateBall rid rng =
      ({ gm with
           rooms := gm.rooms.set rid
             ({ room with
                  gameState := resetBall rng
                    { room.gameState with
                        ball := moveAndCollide room.gameState
                        players := { room.gameState.players with
                                       right := some { p with score := p.score + 1 } } }
                  players := [(p.id, { p with score := p.score + 1 })] }) },
       true) := by
    simp [GameManager.updateBall, hg, hact, hstepPhys, syncPlayers, hL, hR, hmap, SMap.set,
      resetBall]
  rw [hstep]
  refine ⟨rfl, _, SMap.get_set_self _ _ _, ?_, ?_, ?_, ?_⟩
  · norm_num [resetBall, GAME_WIDTH]
  · norm_num [resetBall, GAME_HEIGHT]
  · rcases hs : rng.s2 <;> norm_num [resetBall, BALL_SPEED, hs]
  · simp [resetBall, hscore]

/-- The C6 start state: one registered active room `rid` with no left slot,
right slot `p`, and a ball at field centre moving left at speed 3. -/
def c6Start (rid : String) (p : Player) (vy : ℚ) : GameManager :=
  { rooms := [(rid,
      { id := rid
        gameState :=
          { ball := { x := 400, y := 200, vx := -3, vy := vy }
            players := { left := none, right := some p }
            gameActive := true
            winner := none }
        players := [(p.id, p)]
        gameLoopIntervalId := some true })]
    waitingPlayers := []
    playerToRoom := [(p.id, rid)] }

/-- C6: in an active session whose left slot is empty and whose right slot
holds a player with score 0, a ball starting at (400, 200) with `vx = -3`
keeps `x = 400 - 3n` for the first 133 ticks without scoring; the 134th tick
reports a score, the right slot's score becomes 1, and the ball is reset to
(400, 200) with `|vy| ≥ 3/2`. -/
theorem ball_scores_at_tick_134 (rid : String) (p : Player) (vy : ℚ) (rngs : ℕ → Rng)
    (hscore : p.score = 0) :
    (∀ n, n ≤ 133 →
      (∃ b, (iterateTicks rid rngs (c6Start rid p vy) n).roomBall rid = some b ∧
        b.x = 400 - 3 * n ∧ b.vx = -3) ∧
      (iterateTicks rid rngs (c6Start rid p vy) n).rightScore rid = some 0) ∧
    (∀ n, n < 133 →
      ((iterateTicks rid rngs (c6Start rid p vy) n).updateBall rid (rngs n)).2 = false) ∧
    ((iterateTicks rid rngs (c6Start rid p vy) 133).updateBall rid (rngs 133)).2 = true ∧
    (∃ b, (iterateTicks rid rngs (c6Start rid p vy) 134).roomBall rid = some b ∧
      b.x = 400 ∧ b.y = 200 ∧ 3/2 ≤ |b.vy|) ∧
    (iterateTicks rid rngs (c6Start rid p vy) 134).rightScore rid = some 1 := by
  have hInv : ∀ n, n ≤ 133 → C6Inv rid p n (iterateTicks rid rngs (c6Start rid p vy) n) := by
    intro n
    induction n with
    | zero =>
      intro _
      refine ⟨{ id := rid
                gameState :=
                  { ball := { x := 400, y := 200, vx := -3, vy := vy }
                    players := { left := none, right := some p }
                    gameActive := true
                    winner := none }
                players := [(p.id, p)]
                gameLoopIntervalId := some true }, ?_, rfl, rfl, rfl, rfl, by norm_num, rfl, rfl⟩
      simp [c6Start, iterateTicks, SMap.get]
    | succ k ih =>
      intro hk
      have hk' : k ≤ 132 := by omega
      have hstep := c6_step (iterateTicks rid rngs (c6Start rid p vy) k) rid p (rngs k) k hk'
        (ih (by omega))
      simpa [iterateTicks] using hstep.1
  refine ⟨?_, ?_, ?_, ?_, ?_⟩
  · intro n hn
    obtain ⟨room, hg, hL, hR, hact, hwin, hx, hvx, hmap⟩ := hInv n hn
    constructor
    · exact ⟨room.gameState.ball, by simp [GameManager.roomBall, hg], hx, hvx⟩
    · simp [GameManager.rightScore, hg, hR, hscore]
  · intro n hn
    exact (c6_step _ rid p (rngs n) n (by omega) (hInv n (by omega))).2
  · exact (c6_final _ rid p (rngs 133) hscore (hInv 133 (by norm_num))).1
  · obtain ⟨room', hg', hx', hy', hvy', hR'⟩ :=
      (c6_final _ rid p (rngs 133) hscore (hInv 133 (by norm_num))).2
    refine ⟨room'.gameState.ball, ?_, hx', hy', hvy'⟩
    rw [show (134 : ℕ) = 133 + 1 by norm_num, iterateTicks_succ]
    simp only [GameManager.roomBall, hg']
    rfl
  · obtain ⟨room', hg', hx', hy', hvy', hR'⟩ :=
      (c6_final _ rid p (rngs 133) hscore (hInv 133 (by norm_num))).2
    rw [show (134 : ℕ) = 133 + 1 by norm_num, iterateTicks_succ]
    simp [GameManager.rightScore, hg', hR']


/-- Witness for `ball_scores_at_tick_134` at a concrete input. -/
theorem ball_scores_at_tick_134_witness :
    ((createPlayer "b" .right).score = 0) ∧
    ((∀ n, n ≤ 133 →
        (∃ b, (iterateTicks "r" (fun _ => rngT)
            (c6Start "r" (createPlayer "b" .right) 3) n).roomBall "r" = some b ∧
          b.x = 400 - 3 * n ∧ b.vx = -3) ∧
        (iterateTicks "r" (fun _ => rngT)
          (c6Start "r" (createPlayer "b" .right) 3) n).rightScore "r" = some 0) ∧
      (∀ n, n < 133 →
        ((iterateTicks "r" (fun _ => rngT)
            (c6Start "r" (createPlayer "b" .right) 3) n).updateBall "r" rngT).2 = false) ∧
      ((iterateTicks "r" (fun _ => rngT)
          (c6Start "r" (createPlayer "b" .right) 3) 133).updateBall "r" rngT).2 = true ∧
      (∃ b, (iterateTicks "r" (fun _ => rngT)
          (c6Start "r" (createPlayer "b" .right) 3) 134).roomBall "r" = some b ∧
        b.x = 400 ∧ b.y = 200 ∧ 3/2 ≤ |b.vy|) ∧
      (iterateTicks "r" (fun _ => rngT)
        (c6Start "r" (createPlayer "b" .right) 3) 134).rightScore "r" = some 1) :=
  ⟨rfl, ball_scores_at_tick_134 "r" (createPlayer "b" .right) 3 (fun _ => rngT) rfl⟩
